import Mathlib

/-
Verification of the resourced agent's execution core (package agent).

The Go source is embedded shallowly:
  * byte slices that flow through json.Marshal / json.Unmarshal are modelled
    by the type Bytes: either the serialization of a structured JSON value
    (JVal) or raw bytes that do not parse as JSON;
  * Go maps assembled in insertion order are modelled as association lists;
  * the boltdb bucket is an association list threaded through the functions
    (Put shadows by consing, Get is first-match lookup, matching bolt's
    overwrite/lookup semantics);
  * the external collaborators (libprocess command execution, the
    readers/writers registries, host data, the clock) are the fields of the
    Env structure; an IReader instance is a ReaderTask (results of its Run
    and ToJson methods), an IWriter instance is a WriterTask (its
    GetJsonProcessor path plus Run/ToJson as functions of its current
    ReadersData state, which the agent code mutates explicitly here);
  * a Go (value, error) return is the pair (Option Bytes × Option String).
-/

namespace Resourced

/-- Structured JSON values, the parsed form of the payloads the agent
marshals and unmarshals. -/
inductive JVal where
  | null
  | bool (b : Bool)
  | num (n : Int)
  | str (s : String)
  | arr (elems : List JVal)
  | obj (fields : List (String × JVal))

/-- A Go byte slice as it flows through the agent: either the JSON
serialization of a structured value, or raw bytes that do not parse as
JSON. -/
inductive Bytes where
  | ofJson (j : JVal)
  | raw (s : String)

/-- Models json.Marshal on the in-memory values the agent builds
(maps of strings to structured values); Go's json.Marshal cannot fail on
those, so this is total. -/
def marshal (j : JVal) : Bytes := Bytes.ofJson j

/-- Models json.Unmarshal into an interface value: succeeds exactly on
bytes that are valid JSON. -/
def unmarshal : Bytes → Option JVal
  | Bytes.ofJson j => some j
  | Bytes.raw _ => none

/-- Models json.Unmarshal into a map of strings to interface values:
succeeds exactly on bytes that are a JSON object. -/
def unmarshalObj : Bytes → Option (List (String × JVal))
  | Bytes.ofJson (JVal.obj fields) => some fields
  | _ => none

/-- json.Unmarshal applied to a possibly-nil byte slice (none models Go's
nil slice, on which Unmarshal fails). -/
def unmarshalOpt : Option Bytes → Option JVal
  | none => none
  | some b => unmarshal b

/-- json.Unmarshal into a map applied to a possibly-nil byte slice. -/
def unmarshalObjOpt : Option Bytes → Option (List (String × JVal))
  | none => none
  | some b => unmarshalObj b

/-- The error message json.Unmarshal produces in this model; its exact
text is a modelling artifact, only its presence matters. -/
def jsonUnmarshalErrMsg : String := "unexpected end of JSON input"

/-- The boltdb "resources" bucket: latest value per key. -/
def Store : Type := List (String × Bytes)

/-- bolt Get inside a View transaction: nil (none) when the key is absent. -/
def storeGet (st : Store) (key : String) : Option Bytes :=
  List.lookup key st

/-- bolt Put inside an Update transaction: overwrite semantics (the new
pair shadows any older one under first-match lookup). -/
def storePut (st : Store) (key : String) (value : Bytes) : Store :=
  (key, value) :: st

/-- resourced_config.Config, the task configuration record. -/
structure Config where
  Kind : String
  Path : String
  Interval : String
  Command : String
  GoStruct : String
  ReaderPaths : List String

/-- An instantiated IReader: the outcome of its Run method (some msg when
it returns an error) and of its ToJson method. -/
structure ReaderTask where
  runErr : Option String
  toJsonRes : Option Bytes × Option String

/-- An instantiated IWriter: its GetJsonProcessor path, and its Run/ToJson
outcomes as functions of the ReadersData state the agent installs. -/
structure WriterTask where
  jsonProcessor : String
  runErr : List (String × JVal) → Option String
  toJsonRes : List (String × JVal) → Option Bytes × Option String

/-- The agent's external collaborators: the clock, host-data collection,
external command execution (command string and optional stdin bytes to
captured stdout and error), and the two registries' NewGoStructByConfig
constructors. -/
structure Env where
  now : Int
  hostData : Except String JVal
  execCmd : String → Option Bytes → Option Bytes × Option String
  newGoStructReader : Config → Except String ReaderTask
  newGoStructWriter : Config → Except String WriterTask

/-- The interface value passed to pathWithReaderOrWriterPrefix: either a
Config or a path string, matching the Go type switch. -/
inductive PathInput where
  | cfg (c : Config)
  | str (s : String)

/-- Models Go strings.HasPrefix. -/
def goHasPrefix (s pre : String) : Bool :=
  pre.data.isPrefixOf s.data

/-- pathWithReaderOrWriterPrefix: for a Config the prefix is prepended
unconditionally to its Path; for a string the prefix is prepended unless
the string already starts with the prefix followed by a slash. -/
def pathWithReaderOrWriterPrefix (rOrW : String) (input : PathInput) : String :=
  match input with
  | PathInput.cfg v => ("/" ++ rOrW) ++ v.Path
  | PathInput.str v =>
    if goHasPrefix v (("/" ++ rOrW) ++ "/") then v else ("/" ++ rOrW) ++ v

/-- pathWithReaderPrefix assigns the /r prefix. -/
def pathWithReaderPrefix (input : PathInput) : String :=
  pathWithReaderOrWriterPrefix "r" input

/-- pathWithWriterPrefix assigns the /w prefix. -/
def pathWithWriterPrefix (input : PathInput) : String :=
  pathWithReaderOrWriterPrefix "w" input

/-- pathWithPrefix prepends the short version of config.Kind to path. -/
def pathWithPrefix (config : Config) : String :=
  if config.Kind == "reader" then pathWithReaderPrefix (PathInput.cfg config)
  else if config.Kind == "writer" then pathWithWriterPrefix (PathInput.cfg config)
  else config.Path

/-- GetRunByPath: reads the stored bytes for a path; always returns a nil
error in the source (absence yields nil bytes, not an error). -/
def GetRunByPath (st : Store) (path : String) : Option Bytes :=
  storeGet st path

/-- The readers-data map runCommand assembles for a writer: for each
reader path, GetRunByPath never errs, so an entry is added exactly when
the stored bytes unmarshal as JSON (absent paths yield nil bytes, whose
unmarshal fails, so they are silently skipped). -/
def runCommandReadersData (st : Store) (readerPaths : List String) : List (String × JVal) :=
  readerPaths.filterMap fun readerPath =>
    (unmarshalOpt (GetRunByPath st (pathWithReaderPrefix (PathInput.str readerPath)))).map
      fun d => (readerPath, d)

/-- The stdin runCommand feeds the external command: the marshalled
readers-data map when the config is a writer, nothing otherwise. -/
def cmdStdin (st : Store) (config : Config) : Option Bytes :=
  if config.Kind == "writer" then
    some (marshal (JVal.obj (runCommandReadersData st config.ReaderPaths)))
  else none

/-- runCommand shells out the external program and returns its output. -/
def runCommand (env : Env) (st : Store) (config : Config) : Option Bytes × Option String :=
  env.execCmd config.Command (cmdStdin st config)

/-- The raw readers-data map initGoStructWriter assembles: GetRunByPath
always returns a nil error, so every reader path is inserted, an absent
path mapping to nil bytes (none). -/
def initGoStructWriterReadersData (st : Store) (readerPaths : List String) :
    List (String × Option Bytes) :=
  readerPaths.map fun readerPath =>
    (readerPath, GetRunByPath st (pathWithReaderPrefix (PathInput.str readerPath)))

/-- Modelled from the spec: writers.SetReadersDataInBytes is not under
src/ (the writers package is an external collaborator). Per the spec, a
writer's upstream-reader-data is populated from the stored records of its
ReaderPaths and entries without a stored record are simply absent from the
mapping, so each raw byte entry is kept exactly when it unmarshals as
JSON. -/
def setReadersDataInBytes (raw : List (String × Option Bytes)) : List (String × JVal) :=
  raw.filterMap fun kv => (unmarshalOpt kv.2).map fun d => (kv.1, d)

/-- processJson: when the writer has a JSON processor command, marshal the
current readers data, pipe it through the command, and parse the output as
the new readers data; command failure or unparsable output is an error.
The returned list is the writer's (possibly replaced) ReadersData state. -/
def processJson (env : Env) (writer : WriterTask) (readersData : List (String × JVal)) :
    Except String (List (String × JVal)) :=
  if writer.jsonProcessor == "" then Except.ok readersData
  else
    match env.execCmd writer.jsonProcessor (some (marshal (JVal.obj readersData))) with
    | (_, some e) => Except.error e
    | (out, none) =>
      match unmarshalObjOpt out with
      | none => Except.error jsonUnmarshalErrMsg
      | some newData => Except.ok newData

/-- runGoStruct: execute the task's Run; on failure the output is the
marshalled one-field error payload and the error is swallowed; on success
the output is the task's ToJson result. -/
def runGoStruct (taskRunErr : Option String) (taskToJson : Option Bytes × Option String) :
    Option Bytes × Option String :=
  match taskRunErr with
  | some msg => (some (marshal (JVal.obj [("Error", JVal.str msg)])), none)
  | none => taskToJson

/-- runGoStructReader: construct the reader from the registry (a
construction failure is returned as is) and execute it via runGoStruct. -/
def runGoStructReader (env : Env) (config : Config) : Option Bytes × Option String :=
  match env.newGoStructReader config with
  | Except.error e => (none, some e)
  | Except.ok reader => runGoStruct reader.runErr reader.toJsonRes

/-- runGoStructWriter: construct the writer, install its readers data,
run processJson (whose failure aborts the run), then execute it via
runGoStruct against the resulting ReadersData state. -/
def runGoStructWriter (env : Env) (st : Store) (config : Config) :
    Option Bytes × Option String :=
  match env.newGoStructWriter config with
  | Except.error e => (none, some e)
  | Except.ok writer =>
    let readersData := setReadersDataInBytes (initGoStructWriterReadersData st config.ReaderPaths)
    match processJson env writer readersData with
    | Except.error e => (none, some e)
    | Except.ok newData => runGoStruct (writer.runErr newData) (writer.toJsonRes newData)

/-- commonData: the common record fields of every run; an empty Interval
is replaced by the default "1m", and Command/GoStruct are echoed only when
non-empty. -/
def commonData (now : Int) (config : Config) : List (String × JVal) :=
  [("UnixNano", JVal.num now),
   ("Path", JVal.str config.Path),
   ("Interval", JVal.str (if config.Interval == "" then "1m" else config.Interval))]
  ++ (if config.Command != "" then [("Command", JVal.str config.Command)] else [])
  ++ (if config.GoStruct != "" then [("GoStruct", JVal.str config.GoStruct)] else [])

/-- saveRun: skip when Path is empty; otherwise gather common data, host
data (whose failure aborts), unmarshal the output bytes as a JSON object
(whose failure aborts), and Put the marshalled record under the
kind-prefixed path. Returns the error and the resulting store. -/
def saveRun (env : Env) (st : Store) (config : Config) (output : Option Bytes) :
    Option String × Store :=
  if config.Path == "" then (none, st)
  else
    match env.hostData with
    | Except.error e => (some e, st)
    | Except.ok host =>
      match unmarshalObjOpt output with
      | none => (some jsonUnmarshalErrMsg, st)
      | some runData =>
        (none,
         storePut st (pathWithPrefix config)
           (marshal (JVal.obj
             (commonData env.now config ++ [("Host", host), ("Data", JVal.obj runData)]))))

/-- The result of Agent.Run: the returned output bytes, the returned
error, and the store after the call. -/
structure RunOutcome where
  output : Option Bytes
  err : Option String
  store : Store

/-- The dispatch block at the top of Agent.Run: shell-out when Command is
set, in-process reader or writer when GoStruct is set with the matching
Kind, otherwise nothing runs. -/
def dispatch (env : Env) (st : Store) (config : Config) : Option Bytes × Option String :=
  if config.Command != "" then runCommand env st config
  else if config.GoStruct != "" && config.Kind == "reader" then runGoStructReader env config
  else if config.GoStruct != "" && config.Kind == "writer" then runGoStructWriter env st config
  else (none, none)

/-- Agent.Run: dispatch, return early on a dispatch error (no save), else
saveRun and return its error alongside the output. -/
def Run (env : Env) (st : Store) (config : Config) : RunOutcome :=
  match dispatch env st config with
  | (output, some e) => ⟨output, some e, st⟩
  | (output, none) =>
    ⟨output, (saveRun env st config output).1, (saveRun env st config output).2⟩

/-- Field lookup in a marshalled record (first match, keys are distinct in
the records the agent builds). -/
def recordField (fields : List (String × JVal)) (key : String) : Option JVal :=
  List.lookup key fields

/-- One cycle bound of RunForever as a trace: with fuel n and a quit
signal per iteration, returns the list of paths executed and whether the
loop returned (it returns only on a quit signal; fuel exhaustion is the
modelling cut-off of the infinite loop, reported as not-returned). -/
def runForeverTrace (config : Config) (quitSignal : Nat → Bool) : Nat → List String × Bool
  | 0 => ([], false)
  | fuel + 1 =>
    if quitSignal fuel then ([], true)
    else
      let rest := runForeverTrace config quitSignal fuel
      (config.Path :: rest.1, rest.2)

/-- The spawning block of RunAllForever as written in the source: each
RunForever is invoked synchronously (no goroutine), so the next config's
loop starts only if the previous call returned. -/
def spawnLoopsInline (quitSignal : Nat → Bool) : List Config → Nat → List String
  | [], _ => []
  | config :: rest, fuel =>
    let r := runForeverTrace config quitSignal fuel
    r.1 ++ (if r.2 then spawnLoopsInline quitSignal rest fuel else [])

/-- The quit signal as it stands during the first generation: the only
sender is the dispatch loop itself, which is blocked inside the
synchronous RunForever call, so no signal ever arrives. -/
def noQuit : Nat → Bool := fun _ => false

/-! Concrete fixtures used by the counterexamples and witnesses. -/

/-- A sample structured payload. -/
def okPayload : Bytes := Bytes.ofJson (JVal.obj [("v", JVal.num 1)])

/-- Builds a concrete environment: fixed clock and host data, constant
results for command execution and for both registries. -/
def mkEnv (cmdRes : Option Bytes × Option String)
    (rdr : Except String ReaderTask) (wtr : Except String WriterTask) : Env :=
  { now := 7
    hostData := Except.ok (JVal.str "h1")
    execCmd := fun _ _ => cmdRes
    newGoStructReader := fun _ => rdr
    newGoStructWriter := fun _ => wtr }

/-- A reader task whose Run method fails. -/
def failingReader : ReaderTask := ⟨some "boom", (none, none)⟩

/-- A reader task whose Run succeeds and whose ToJson yields the sample
payload. -/
def okReader : ReaderTask := ⟨none, (some okPayload, none)⟩

/-- A writer task with no JSON processor whose Run succeeds. -/
def okWriter : WriterTask := ⟨"", fun _ => none, fun _ => (some okPayload, none)⟩

/-- A writer task with a JSON processor command. -/
def processedWriter : WriterTask := ⟨"jp.py", fun _ => none, fun _ => (some okPayload, none)⟩

/-! Helper lemmas shared by the claim theorems. -/

theorem goHasPrefix_iff (s pre : String) : goHasPrefix s pre = true ↔ pre.data <+: s.data := by
  simp [goHasPrefix, List.isPrefixOf_iff_prefix]

theorem goHasPrefix_prepend (rOrW s : String) (h : goHasPrefix s "/" = true) :
    goHasPrefix (("/" ++ rOrW) ++ s) (("/" ++ rOrW) ++ "/") = true := by
  rw [goHasPrefix_iff] at h ⊢
  simpa [String.data_append] using (List.prefix_append_right_inj ("/" ++ rOrW).data).mpr h

theorem pathWithReaderOrWriterPrefix_str_idem (rOrW s : String)
    (h : goHasPrefix s "/" = true) :
    pathWithReaderOrWriterPrefix rOrW
        (PathInput.str (pathWithReaderOrWriterPrefix rOrW (PathInput.str s)))
      = pathWithReaderOrWriterPrefix rOrW (PathInput.str s) := by
  unfold pathWithReaderOrWriterPrefix
  by_cases hp : goHasPrefix s (("/" ++ rOrW) ++ "/") = true
  · simp [hp]
  · simp [hp, goHasPrefix_prepend rOrW s h]

/-- C10: for every string beginning with "/", the kind-prefixing helpers
are idempotent, and a path already carrying its "/r/" (resp. "/w/")
prefix is returned unchanged by the reader (resp. writer) helper. -/
theorem c10_prefix_helpers_idempotent (s : String) (h : goHasPrefix s "/" = true) :
    pathWithReaderPrefix (PathInput.str (pathWithReaderPrefix (PathInput.str s)))
        = pathWithReaderPrefix (PathInput.str s)
    ∧ pathWithWriterPrefix (PathInput.str (pathWithWriterPrefix (PathInput.str s)))
        = pathWithWriterPrefix (PathInput.str s)
    ∧ (goHasPrefix s "/r/" = true → pathWithReaderPrefix (PathInput.str s) = s)
    ∧ (goHasPrefix s "/w/" = true → pathWithWriterPrefix (PathInput.str s) = s) := by
  refine ⟨pathWithReaderOrWriterPrefix_str_idem "r" s h,
          pathWithReaderOrWriterPrefix_str_idem "w" s h, ?_, ?_⟩
  · intro hr
    simp [pathWithReaderPrefix, pathWithReaderOrWriterPrefix, hr]
  · intro hw
    simp [pathWithWriterPrefix, pathWithReaderOrWriterPrefix, hw]

/-- Witness for C10 at the concrete path "/cpu". -/
theorem c10_prefix_helpers_idempotent_witness :
    goHasPrefix "/cpu" "/" = true
    ∧ (pathWithReaderPrefix (PathInput.str (pathWithReaderPrefix (PathInput.str "/cpu")))
          = pathWithReaderPrefix (PathInput.str "/cpu")
       ∧ pathWithWriterPrefix (PathInput.str (pathWithWriterPrefix (PathInput.str "/cpu")))
          = pathWithWriterPrefix (PathInput.str "/cpu")
       ∧ (goHasPrefix "/cpu" "/r/" = true → pathWithReaderPrefix (PathInput.str "/cpu") = "/cpu")
       ∧ (goHasPrefix "/cpu" "/w/" = true → pathWithWriterPrefix (PathInput.str "/cpu") = "/cpu")) :=
  ⟨by decide, c10_prefix_helpers_idempotent "/cpu" (by decide)⟩

theorem runForeverTrace_noQuit (config : Config) :
    ∀ fuel, runForeverTrace config noQuit fuel = (List.replicate fuel config.Path, false) := by
  intro fuel
  induction fuel with
  | zero => simp [runForeverTrace]
  | succ n ih => simp [runForeverTrace, noQuit, ih, List.replicate_succ]

/-- C8: evidence for the divergence between the claim and the source. The
source spawns no goroutines: RunForever is invoked synchronously inside
the dispatch loop, and with no quit signal ever arriving (the only sender
is the dispatch loop itself, now blocked), the first config's loop runs
alone for the whole trace: the second config's loop is never started, so
no two loops ever run, let alone concurrently, and reloads are never
processed. -/
theorem c8_second_loop_never_spawned (c1 c2 : Config) (fuel : Nat) :
    spawnLoopsInline noQuit [c1, c2] fuel = List.replicate fuel c1.Path := by
  simp [spawnLoopsInline, runForeverTrace_noQuit]

theorem saveRun_fst_none (env : Env) (st : Store) (config : Config) (output : Option Bytes)
    (hp : config.Path ≠ "")
    (h : (saveRun env st config output).1 = none) :
    ∃ host runData, env.hostData = Except.ok host ∧ unmarshalObjOpt output = some runData ∧
      (saveRun env st config output).2
        = storePut st (pathWithPrefix config)
            (marshal (JVal.obj (commonData env.now config
              ++ [("Host", host), ("Data", JVal.obj runData)]))) := by
  unfold saveRun at h ⊢
  rw [if_neg (by simpa using hp)] at h ⊢
  cases hh : env.hostData with
  | error e => rw [hh] at h; simp at h
  | ok host =>
    rw [hh] at h
    cases hu : unmarshalObjOpt output with
    | none => rw [hu] at h; simp at h
    | some rd => exact ⟨host, rd, rfl, rfl, rfl⟩

theorem Run_err_none_inv (env : Env) (st : Store) (config : Config)
    (h : (Run env st config).err = none) :
    ∃ o, dispatch env st config = (o, none)
      ∧ (saveRun env st config o).1 = none
      ∧ Run env st config = ⟨o, none, (saveRun env st config o).2⟩ := by
  rcases hd : dispatch env st config with ⟨o, e⟩
  cases e with
  | some e0 =>
    exfalso
    unfold Run at h
    rw [hd] at h
    simp at h
  | none =>
    have hR : Run env st config
        = ⟨o, (saveRun env st config o).1, (saveRun env st config o).2⟩ := by
      unfold Run; rw [hd]
    rw [hR] at h
    have h1 : (saveRun env st config o).1 = none := h
    exact ⟨o, rfl, h1, by rw [hR, h1]⟩

theorem GetRunByPath_put_self (st : Store) (k : String) (v : Bytes) :
    GetRunByPath (storePut st k v) k = some v := by
  simp [GetRunByPath, storeGet, storePut, List.lookup]

theorem lookup_record_Path (now : Int) (c : Config) (host : JVal) (rd : List (String × JVal)) :
    recordField (commonData now c ++ [("Host", host), ("Data", JVal.obj rd)]) "Path"
      = some (JVal.str c.Path) := rfl

theorem lookup_record_Interval (now : Int) (c : Config) (host : JVal)
    (rd : List (String × JVal)) :
    recordField (commonData now c ++ [("Host", host), ("Data", JVal.obj rd)]) "Interval"
      = some (JVal.str (if c.Interval == "" then "1m" else c.Interval)) := rfl

theorem lookup_record_Command (now : Int) (c : Config) (host : JVal)
    (rd : List (String × JVal)) :
    recordField (commonData now c ++ [("Host", host), ("Data", JVal.obj rd)]) "Command"
      = if c.Command = "" then none else some (JVal.str c.Command) := by
  by_cases hc : c.Command = "" <;> by_cases hg : c.GoStruct = "" <;>
    simp [recordField, commonData, List.lookup, hc, hg]

theorem lookup_record_GoStruct (now : Int) (c : Config) (host : JVal)
    (rd : List (String × JVal)) :
    recordField (commonData now c ++ [("Host", host), ("Data", JVal.obj rd)]) "GoStruct"
      = if c.GoStruct = "" then none else some (JVal.str c.GoStruct) := by
  by_cases hc : c.Command = "" <;> by_cases hg : c.GoStruct = "" <;>
    simp [recordField, commonData, List.lookup, hc, hg]

theorem lookup_record_Data (now : Int) (c : Config) (host : JVal)
    (rd : List (String × JVal)) :
    recordField (commonData now c ++ [("Host", host), ("Data", JVal.obj rd)]) "Data"
      = some (JVal.obj rd) := by
  by_cases hc : c.Command = "" <;> by_cases hg : c.GoStruct = "" <;>
    simp [recordField, commonData, List.lookup, hc, hg]

theorem pathWithPrefix_kind_eq (config : Config)
    (hkind : config.Kind = "reader" ∨ config.Kind = "writer") :
    pathWithPrefix config
      = (if config.Kind = "reader" then "/r" else "/w") ++ config.Path := by
  rcases hkind with hk | hk <;>
    simp [pathWithPrefix, pathWithReaderPrefix, pathWithWriterPrefix,
      pathWithReaderOrWriterPrefix, hk]

/-- A reader config whose external command fails, for the C1
counterexample. -/
def c1cfg : Config := ⟨"reader", "/x", "5s", "doit", "", []⟩

/-- An environment whose external command fails with exit status 1. -/
def c1env : Env := mkEnv (none, some "exit status 1") (Except.error "er") (Except.error "ew")

/-- C1 counterexample: the claim promises a matching RunRecord after Run
completes whether the run succeeded or failed, but on a config whose
shell-out command fails, Run returns the error without persisting
anything: on an empty store, GetRunByPath on the kind-prefixed path still
returns nothing after Run completes. -/
theorem c1_counterexample_failed_run_no_record :
    (Run c1env [] c1cfg).err = some "exit status 1"
    ∧ GetRunByPath (Run c1env [] c1cfg).store (pathWithReaderPrefix (PathInput.cfg c1cfg))
        = none :=
  ⟨rfl, rfl⟩

/-- C1 (amended): for every reader or writer config with a non-empty
Path, when Run completes without error, GetRunByPath on the kind-prefixed
path returns a RunRecord whose Path field is the config's Path, whose
Interval field is the config's Interval (or the default "1m" when the
config's Interval is empty), and whose Command/GoStruct fields echo the
config's exactly when those are non-empty (and are absent when empty). -/
theorem c1_amended_ok_run_record_echoes_config (env : Env) (st : Store) (config : Config)
    (hkind : config.Kind = "reader" ∨ config.Kind = "writer")
    (hpath : config.Path ≠ "")
    (herr : (Run env st config).err = none) :
    ∃ fields, GetRunByPath (Run env st config).store
        ((if config.Kind = "reader" then "/r" else "/w") ++ config.Path)
        = some (Bytes.ofJson (JVal.obj fields))
      ∧ recordField fields "Path" = some (JVal.str config.Path)
      ∧ recordField fields "Interval"
          = some (JVal.str (if config.Interval = "" then "1m" else config.Interval))
      ∧ recordField fields "Command"
          = (if config.Command = "" then none else some (JVal.str config.Command))
      ∧ recordField fields "GoStruct"
          = (if config.GoStruct = "" then none else some (JVal.str config.GoStruct)) := by
  obtain ⟨o, hd, h1, hR⟩ := Run_err_none_inv env st config herr
  obtain ⟨host, rd, hh, hu, hst⟩ := saveRun_fst_none env st config o hpath h1
  rw [hR]
  refine ⟨commonData env.now config ++ [("Host", host), ("Data", JVal.obj rd)],
    ?_, ?_, ?_, ?_, ?_⟩
  · show GetRunByPath (saveRun env st config o).2 _ = _
    rw [hst, ← pathWithPrefix_kind_eq config hkind]
    exact GetRunByPath_put_self st (pathWithPrefix config) _
  · exact lookup_record_Path env.now config host rd
  · have hI0 := lookup_record_Interval env.now config host rd
    by_cases hI : config.Interval = "" <;> simp [hI] at hI0 ⊢ <;> exact hI0
  · exact lookup_record_Command env.now config host rd
  · exact lookup_record_GoStruct env.now config host rd

/-- A reader config with empty Interval whose external command succeeds,
for the C1 and C9 witnesses. -/
def c1wcfg : Config := ⟨"reader", "/x", "", "doit", "", []⟩

/-- An environment whose external command succeeds with the sample
payload. -/
def cmdOkEnv : Env := mkEnv (some okPayload, none) (Except.error "er") (Except.error "ew")

/-- Witness for the amended C1 at a concrete successful run. -/
theorem c1_amended_ok_run_record_echoes_config_witness :
    (c1wcfg.Kind = "reader" ∨ c1wcfg.Kind = "writer")
    ∧ c1wcfg.Path ≠ ""
    ∧ (Run cmdOkEnv [] c1wcfg).err = none
    ∧ (∃ fields, GetRunByPath (Run cmdOkEnv [] c1wcfg).store
          ((if c1wcfg.Kind = "reader" then "/r" else "/w") ++ c1wcfg.Path)
          = some (Bytes.ofJson (JVal.obj fields))
        ∧ recordField fields "Path" = some (JVal.str c1wcfg.Path)
        ∧ recordField fields "Interval"
            = some (JVal.str (if c1wcfg.Interval = "" then "1m" else c1wcfg.Interval))
        ∧ recordField fields "Command"
            = (if c1wcfg.Command = "" then none else some (JVal.str c1wcfg.Command))
        ∧ recordField fields "GoStruct"
            = (if c1wcfg.GoStruct = "" then none else some (JVal.str c1wcfg.GoStruct))) :=
  ⟨Or.inl rfl, by decide, rfl,
    c1_amended_ok_run_record_echoes_config cmdOkEnv [] c1wcfg (Or.inl rfl) (by decide) rfl⟩

/-- C9: for every config whose Interval is the empty string, the
RunRecord persisted by an error-free run carries the Interval value
"1m". -/
theorem c9_empty_interval_persists_default (env : Env) (st : Store) (config : Config)
    (hI : config.Interval = "") (hpath : config.Path ≠ "")
    (herr : (Run env st config).err = none) :
    ∃ fields, GetRunByPath (Run env st config).store (pathWithPrefix config)
        = some (Bytes.ofJson (JVal.obj fields))
      ∧ recordField fields "Interval" = some (JVal.str "1m") := by
  obtain ⟨o, hd, h1, hR⟩ := Run_err_none_inv env st config herr
  obtain ⟨host, rd, hh, hu, hst⟩ := saveRun_fst_none env st config o hpath h1
  rw [hR]
  refine ⟨commonData env.now config ++ [("Host", host), ("Data", JVal.obj rd)], ?_, ?_⟩
  · show GetRunByPath (saveRun env st config o).2 _ = _
    rw [hst]
    exact GetRunByPath_put_self st (pathWithPrefix config) _
  · have hI0 := lookup_record_Interval env.now config host rd
    simpa [hI] using hI0

/-- Witness for C9 at a concrete run with an empty Interval. -/
theorem c9_empty_interval_persists_default_witness :
    c1wcfg.Interval = "" ∧ c1wcfg.Path ≠ "" ∧ (Run cmdOkEnv [] c1wcfg).err = none
    ∧ (∃ fields, GetRunByPath (Run cmdOkEnv [] c1wcfg).store (pathWithPrefix c1wcfg)
          = some (Bytes.ofJson (JVal.obj fields))
        ∧ recordField fields "Interval" = some (JVal.str "1m")) :=
  ⟨rfl, by decide, rfl,
    c9_empty_interval_persists_default cmdOkEnv [] c1wcfg rfl (by decide) rfl⟩

/-- C2: for every in-process reader config (empty Command, non-empty
GoStruct, Kind reader) whose task's Run fails, Agent.Run does not
propagate the collector error: the run's output is exactly the marshalled
one-field payload with the Error message, the returned error is nil (host
data being available), and when Path is non-empty that payload is
persisted as the record's Data field. -/
theorem c2_failing_reader_error_payload (env : Env) (st : Store) (config : Config)
    (msg : String) (reader : ReaderTask) (host : JVal)
    (hc : config.Command = "") (hg : config.GoStruct ≠ "") (hk : config.Kind = "reader")
    (hr : env.newGoStructReader config = Except.ok reader)
    (hfail : reader.runErr = some msg)
    (hh : env.hostData = Except.ok host)
    (hpath : config.Path ≠ "") :
    (Run env st config).output = some (Bytes.ofJson (JVal.obj [("Error", JVal.str msg)]))
    ∧ (Run env st config).err = none
    ∧ ∃ fields, GetRunByPath (Run env st config).store (pathWithPrefix config)
        = some (Bytes.ofJson (JVal.obj fields))
        ∧ recordField fields "Data" = some (JVal.obj [("Error", JVal.str msg)]) := by
  have hd : dispatch env st config
      = (some (marshal (JVal.obj [("Error", JVal.str msg)])), none) := by
    simp [dispatch, hc, hg, hk, runGoStructReader, hr, runGoStruct, hfail]
  have hs : saveRun env st config (some (marshal (JVal.obj [("Error", JVal.str msg)])))
      = (none, storePut st (pathWithPrefix config)
          (marshal (JVal.obj (commonData env.now config
            ++ [("Host", host), ("Data", JVal.obj [("Error", JVal.str msg)])])))) := by
    unfold saveRun
    rw [if_neg (by simpa using hpath), hh]
    rfl
  have hRun : Run env st config
      = ⟨some (marshal (JVal.obj [("Error", JVal.str msg)])),
         (saveRun env st config (some (marshal (JVal.obj [("Error", JVal.str msg)])))).1,
         (saveRun env st config (some (marshal (JVal.obj [("Error", JVal.str msg)])))).2⟩ := by
    unfold Run; rw [hd]
  rw [hRun, hs]
  refine ⟨rfl, rfl,
    commonData env.now config ++ [("Host", host), ("Data", JVal.obj [("Error", JVal.str msg)])],
    ?_, ?_⟩
  · exact GetRunByPath_put_self st (pathWithPrefix config) _
  · exact lookup_record_Data env.now config host _

/-- An in-process reader config, for the C2 witness. -/
def c2cfg : Config := ⟨"reader", "/x", "1s", "", "ProcUptime", []⟩

/-- An environment whose reader registry yields the failing reader. -/
def c2env : Env := mkEnv (none, none) (Except.ok failingReader) (Except.error "ew")

/-- Witness for C2 at a concrete failing in-process reader run. -/
theorem c2_failing_reader_error_payload_witness :
    (c2cfg.Command = "" ∧ c2cfg.GoStruct ≠ "" ∧ c2cfg.Kind = "reader"
      ∧ c2env.newGoStructReader c2cfg = Except.ok failingReader
      ∧ failingReader.runErr = some "boom"
      ∧ c2env.hostData = Except.ok (JVal.str "h1") ∧ c2cfg.Path ≠ "")
    ∧ ((Run c2env [] c2cfg).output
          = some (Bytes.ofJson (JVal.obj [("Error", JVal.str "boom")]))
        ∧ (Run c2env [] c2cfg).err = none
        ∧ ∃ fields, GetRunByPath (Run c2env [] c2cfg).store (pathWithPrefix c2cfg)
            = some (Bytes.ofJson (JVal.obj fields))
            ∧ recordField fields "Data" = some (JVal.obj [("Error", JVal.str "boom")])) :=
  ⟨⟨rfl, by decide, rfl, rfl, rfl, rfl, by decide⟩,
    c2_failing_reader_error_payload c2env [] c2cfg "boom" failingReader (JVal.str "h1")
      rfl (by decide) rfl rfl rfl rfl (by decide)⟩

/-- C3: for every writer config with ReaderPaths = [p1, p2] where the
store holds a parsable record for p1 and none for p2, the assembled
upstream mapping has domain exactly p1, on both execution paths: the
shell-out path feeds the external command exactly the marshalled
one-entry mapping, and the in-process path installs exactly that one-entry
mapping as the writer's ReadersData before running it; p2's absence
produces no error. -/
theorem c3_absent_reader_path_silently_skipped (env : Env) (st : Store) (config : Config)
    (p1 p2 : String) (b1 : Bytes) (v1 : JVal)
    (hrp : config.ReaderPaths = [p1, p2])
    (h1 : GetRunByPath st (pathWithReaderPrefix (PathInput.str p1)) = some b1)
    (hv1 : unmarshal b1 = some v1)
    (h2 : GetRunByPath st (pathWithReaderPrefix (PathInput.str p2)) = none) :
    runCommandReadersData st config.ReaderPaths = [(p1, v1)]
    ∧ setReadersDataInBytes (initGoStructWriterReadersData st config.ReaderPaths) = [(p1, v1)]
    ∧ (config.Kind = "writer" →
        runCommand env st config
          = env.execCmd config.Command (some (marshal (JVal.obj [(p1, v1)]))))
    ∧ (∀ w, env.newGoStructWriter config = Except.ok w → w.jsonProcessor = "" →
        runGoStructWriter env st config
          = runGoStruct (w.runErr [(p1, v1)]) (w.toJsonRes [(p1, v1)])) := by
  have ha : runCommandReadersData st [p1, p2] = [(p1, v1)] := by
    simp [runCommandReadersData, h1, h2, unmarshalOpt, hv1]
  have hb : setReadersDataInBytes (initGoStructWriterReadersData st [p1, p2]) = [(p1, v1)] := by
    simp [setReadersDataInBytes, initGoStructWriterReadersData, h1, h2, unmarshalOpt, hv1]
  refine ⟨by rw [hrp]; exact ha, by rw [hrp]; exact hb, ?_, ?_⟩
  · intro hk
    simp [runCommand, cmdStdin, hk, hrp, ha]
  · intro w hw hjp
    simp [runGoStructWriter, hw, hrp, hb, processJson, hjp]

/-- A writer config consuming two reader paths, for the C3 witness. -/
def c3cfg : Config := ⟨"writer", "/alert", "1m", "cat", "", ["/p1", "/p2"]⟩

/-- A store holding a record for /p1 only. -/
def c3st : Store := [("/r/p1", okPayload)]

/-- Witness for C3 at a concrete store with only p1 present. -/
theorem c3_absent_reader_path_silently_skipped_witness :
    (c3cfg.ReaderPaths = ["/p1", "/p2"]
      ∧ GetRunByPath c3st (pathWithReaderPrefix (PathInput.str "/p1")) = some okPayload
      ∧ unmarshal okPayload = some (JVal.obj [("v", JVal.num 1)])
      ∧ GetRunByPath c3st (pathWithReaderPrefix (PathInput.str "/p2")) = none)
    ∧ (runCommandReadersData c3st c3cfg.ReaderPaths = [("/p1", JVal.obj [("v", JVal.num 1)])]
        ∧ setReadersDataInBytes (initGoStructWriterReadersData c3st c3cfg.ReaderPaths)
            = [("/p1", JVal.obj [("v", JVal.num 1)])]
        ∧ (c3cfg.Kind = "writer" →
            runCommand cmdOkEnv c3st c3cfg
              = cmdOkEnv.execCmd c3cfg.Command
                  (some (marshal (JVal.obj [("/p1", JVal.obj [("v", JVal.num 1)])]))))
        ∧ (∀ w, cmdOkEnv.newGoStructWriter c3cfg = Except.ok w → w.jsonProcessor = "" →
            runGoStructWriter cmdOkEnv c3st c3cfg
              = runGoStruct (w.runErr [("/p1", JVal.obj [("v", JVal.num 1)])])
                  (w.toJsonRes [("/p1", JVal.obj [("v", JVal.num 1)])]))) :=
  ⟨⟨rfl, rfl, rfl, rfl⟩,
    c3_absent_reader_path_silently_skipped cmdOkEnv c3st c3cfg "/p1" "/p2" okPayload
      (JVal.obj [("v", JVal.num 1)]) rfl rfl rfl rfl⟩

/-- An in-process reader config whose GoStruct is not registered, for the
C4 counterexample and witness. -/
def c4cfg : Config := ⟨"reader", "/x", "", "", "Nope", []⟩

/-- An environment whose registries reject every construction. -/
def c4env : Env :=
  mkEnv (none, none) (Except.error "NewGoStruct is undefined.")
    (Except.error "NewGoStruct is undefined.")

/-- C4 counterexample: on an unregistered GoStruct with a non-empty Path,
the construction error is surfaced but no error-payload RunRecord is
persisted — Run returns before saveRun, and GetRunByPath on the
kind-prefixed path still finds nothing. -/
theorem c4_counterexample_no_error_record_persisted :
    (Run c4env [] c4cfg).err = some "NewGoStruct is undefined."
    ∧ GetRunByPath (Run c4env [] c4cfg).store (pathWithPrefix c4cfg) = none :=
  ⟨rfl, rfl⟩

/-- C4 (amended): for every config whose GoStruct is not present in the
corresponding registry, the construction error is surfaced to the caller
of Agent.Run, no output is returned, and nothing is persisted for any
Path (the store is unchanged). -/
theorem c4_amended_construction_error_surfaced_no_persist (env : Env) (st : Store)
    (config : Config) (e : String)
    (hc : config.Command = "")
    (h : (config.Kind = "reader" ∧ config.GoStruct ≠ ""
            ∧ env.newGoStructReader config = Except.error e)
       ∨ (config.Kind = "writer" ∧ config.GoStruct ≠ ""
            ∧ env.newGoStructWriter config = Except.error e)) :
    (Run env st config).err = some e
    ∧ (Run env st config).output = none
    ∧ (Run env st config).store = st := by
  have hd : dispatch env st config = (none, some e) := by
    rcases h with ⟨hk, hg, hr⟩ | ⟨hk, hg, hr⟩
    · simp [dispatch, hc, hk, hg, runGoStructReader, hr]
    · simp [dispatch, hc, hk, hg, runGoStructWriter, hr]
  have hRun : Run env st config = ⟨none, some e, st⟩ := by
    unfold Run; rw [hd]
  rw [hRun]
  exact ⟨rfl, rfl, rfl⟩

/-- Witness for the amended C4 at a concrete unregistered reader. -/
theorem c4_amended_construction_error_surfaced_no_persist_witness :
    (c4cfg.Command = ""
      ∧ (c4cfg.Kind = "reader" ∧ c4cfg.GoStruct ≠ ""
          ∧ c4env.newGoStructReader c4cfg = Except.error "NewGoStruct is undefined."))
    ∧ ((Run c4env [] c4cfg).err = some "NewGoStruct is undefined."
        ∧ (Run c4env [] c4cfg).output = none
        ∧ (Run c4env [] c4cfg).store = []) :=
  ⟨⟨rfl, rfl, by decide, rfl⟩,
    c4_amended_construction_error_surfaced_no_persist c4env [] c4cfg
      "NewGoStruct is undefined." rfl (Or.inl ⟨rfl, by decide, rfl⟩)⟩

/-- C5: for every run whose shell-out command fails, and for every
in-process writer run whose post-processing fails (command failure or
unparsable output), Agent.Run returns that error and the store is
unchanged — no RunRecord is written for the config's path in that run. -/
theorem c5_execution_error_propagates_skips_persist (env : Env) (st : Store)
    (config : Config) (e : String)
    (h : (config.Command ≠ ""
            ∧ (env.execCmd config.Command (cmdStdin st config)).2 = some e)
       ∨ (config.Command = "" ∧ config.GoStruct ≠ "" ∧ config.Kind = "writer"
            ∧ ∃ w, env.newGoStructWriter config = Except.ok w
              ∧ processJson env w (setReadersDataInBytes
                  (initGoStructWriterReadersData st config.ReaderPaths))
                  = Except.error e)) :
    (Run env st config).err = some e ∧ (Run env st config).store = st := by
  have hd : ∃ o, dispatch env st config = (o, some e) := by
    rcases h with ⟨hcmd, hfail⟩ | ⟨hc, hg, hk, w, hw, hp⟩
    · rcases hcc : env.execCmd config.Command (cmdStdin st config) with ⟨o, e2⟩
      refine ⟨o, ?_⟩
      have he2 : e2 = some e := by rw [hcc] at hfail; exact hfail
      simp [dispatch, hcmd, runCommand, hcc, he2]
    · exact ⟨none, by simp [dispatch, hc, hg, hk, runGoStructWriter, hw, hp]⟩
  obtain ⟨o, hd⟩ := hd
  have hRun : Run env st config = ⟨o, some e, st⟩ := by
    unfold Run; rw [hd]
  rw [hRun]
  exact ⟨rfl, rfl⟩

/-- A reader config with a failing external command, for the C5 witness. -/
def c5cfg : Config := ⟨"reader", "/y", "5s", "boomcmd", "", []⟩

/-- An environment whose external command fails, for the C5 witness. -/
def c5env : Env := mkEnv (none, some "exit status 2") (Except.error "er") (Except.error "ew")

/-- Witness for C5 at a concrete failing shell-out run. -/
theorem c5_execution_error_propagates_skips_persist_witness :
    ((c5cfg.Command ≠ ""
        ∧ (c5env.execCmd c5cfg.Command (cmdStdin [] c5cfg)).2 = some "exit status 2")
      ∨ (c5cfg.Command = "" ∧ c5cfg.GoStruct ≠ "" ∧ c5cfg.Kind = "writer"
          ∧ ∃ w, c5env.newGoStructWriter c5cfg = Except.ok w
            ∧ processJson c5env w (setReadersDataInBytes
                (initGoStructWriterReadersData [] c5cfg.ReaderPaths))
                = Except.error "exit status 2"))
    ∧ ((Run c5env [] c5cfg).err = some "exit status 2"
        ∧ (Run c5env [] c5cfg).store = []) :=
  ⟨Or.inl ⟨by decide, rfl⟩,
    c5_execution_error_propagates_skips_persist c5env [] c5cfg "exit status 2"
      (Or.inl ⟨by decide, rfl⟩)⟩

/-- An unmatched config (no Command, no GoStruct) with a non-empty Path,
for the C6 counterexample and witness. -/
def c6cfg : Config := ⟨"x", "/p", "", "", "", []⟩

/-- An environment with working host data, for C6. -/
def c6env : Env := mkEnv (none, none) (Except.error "er") (Except.error "ew")

/-- C6 counterexample: an unmatched config with a non-empty Path is not a
no-op for the caller: Run reaches saveRun with nil output, whose unmarshal
fails, so Run returns a serialization error rather than no error. -/
theorem c6_counterexample_unmatched_nonempty_path_errors :
    (Run c6env [] c6cfg).output = none
    ∧ (Run c6env [] c6cfg).err = some jsonUnmarshalErrMsg :=
  ⟨rfl, rfl⟩

/-- C6 (amended): for every config matched by none of the three dispatch
arms, Run performs no task work and writes nothing: the output is nil and
the store is unchanged for every Path; the returned error is nil exactly
when Path is empty (a non-empty Path makes saveRun fail to unmarshal the
nil output, and that — or a host-data failure — is returned). -/
theorem c6_amended_unmatched_noop_unless_persisting (env : Env) (st : Store) (config : Config)
    (hc : config.Command = "")
    (hu : config.GoStruct = "" ∨ (config.Kind ≠ "reader" ∧ config.Kind ≠ "writer")) :
    (Run env st config).output = none
    ∧ (Run env st config).store = st
    ∧ ((Run env st config).err = none ↔ config.Path = "") := by
  have hd : dispatch env st config = (none, none) := by
    rcases hu with hg | ⟨hk1, hk2⟩
    · simp [dispatch, hc, hg]
    · simp [dispatch, hc, hk1, hk2]
  have hRun : Run env st config
      = ⟨none, (saveRun env st config none).1, (saveRun env st config none).2⟩ := by
    unfold Run; rw [hd]
  by_cases hp : config.Path = ""
  · have hs : saveRun env st config none = (none, st) := by
      unfold saveRun; rw [if_pos (by simpa using hp)]
    rw [hRun, hs]
    simp [hp]
  · have hs : (saveRun env st config none).1 ≠ none ∧ (saveRun env st config none).2 = st := by
      unfold saveRun
      rw [if_neg (by simpa using hp)]
      cases env.hostData <;> simp [unmarshalObjOpt]
    rw [hRun]
    exact ⟨rfl, hs.2, iff_of_false hs.1 hp⟩

/-- Witness for the amended C6 at a concrete unmatched config. -/
theorem c6_amended_unmatched_noop_unless_persisting_witness :
    (c6cfg.Command = ""
      ∧ (c6cfg.GoStruct = "" ∨ (c6cfg.Kind ≠ "reader" ∧ c6cfg.Kind ≠ "writer")))
    ∧ ((Run c6env [] c6cfg).output = none
        ∧ (Run c6env [] c6cfg).store = []
        ∧ ((Run c6env [] c6cfg).err = none ↔ c6cfg.Path = "")) :=
  ⟨⟨rfl, Or.inl rfl⟩,
    c6_amended_unmatched_noop_unless_persisting c6env [] c6cfg rfl (Or.inl rfl)⟩

/-- C7: for every run whose dispatch succeeds but whose output bytes are
not parsable as a JSON object, with a non-empty Path and working host
data, Run propagates the serialization error and still returns the raw
output bytes, and the store is unchanged. -/
theorem c7_unparsable_output_error_with_bytes (env : Env) (st : Store) (config : Config)
    (out : Bytes) (host : JVal)
    (hd : dispatch env st config = (some out, none))
    (hparse : unmarshalObj out = none)
    (hpath : config.Path ≠ "")
    (hh : env.hostData = Except.ok host) :
    (Run env st config).output = some out
    ∧ (Run env st config).err = some jsonUnmarshalErrMsg
    ∧ (Run env st config).store = st := by
  have hs : saveRun env st config (some out) = (some jsonUnmarshalErrMsg, st) := by
    unfold saveRun
    rw [if_neg (by simpa using hpath), hh]
    simp [unmarshalObjOpt, hparse]
  have hRun : Run env st config
      = ⟨some out, (saveRun env st config (some out)).1,
         (saveRun env st config (some out)).2⟩ := by
    unfold Run; rw [hd]
  rw [hRun, hs]
  exact ⟨rfl, rfl, rfl⟩

/-- A reader config whose external command emits raw non-JSON bytes, for
the C7 witness. -/
def c7cfg : Config := ⟨"reader", "/x", "1m", "doit", "", []⟩

/-- An environment whose external command outputs unparsable bytes. -/
def c7env : Env := mkEnv (some (Bytes.raw "oops"), none) (Except.error "er") (Except.error "ew")

/-- Witness for C7 at a concrete run emitting raw bytes. -/
theorem c7_unparsable_output_error_with_bytes_witness :
    (dispatch c7env [] c7cfg = (some (Bytes.raw "oops"), none)
      ∧ unmarshalObj (Bytes.raw "oops") = none
      ∧ c7cfg.Path ≠ ""
      ∧ c7env.hostData = Except.ok (JVal.str "h1"))
    ∧ ((Run c7env [] c7cfg).output = some (Bytes.raw "oops")
        ∧ (Run c7env [] c7cfg).err = some jsonUnmarshalErrMsg
        ∧ (Run c7env [] c7cfg).store = []) :=
  ⟨⟨rfl, rfl, by decide, rfl⟩,
    c7_unparsable_output_error_with_bytes c7env [] c7cfg (Bytes.raw "oops") (JVal.str "h1")
      rfl rfl (by decide) rfl⟩

end Resourced
